import Mathlib

/-!
Verification of the azurecodegpt VSCode extension core: the
connection/credential resolution pipeline, prompt construction, and
response post-processing.  Each definition is a shallow embedding of the
corresponding TypeScript function; remote calls (token acquisition,
secret fetches, chat completions) are passed in as explicit oracles of
type `Except String _` so that the control flow of the TypeScript
try/catch blocks can be reproduced exactly.
-/

/-! ## ResponseFixup: `ensureCodeBlocks` (src/Helpers.ts)

The TypeScript counts occurrences of the three-backtick fence marker with
a global regex (`new RegExp("\x60\x60\x60", "g")`), i.e. non-overlapping
matches scanning left to right; if the count is odd it appends a closing
fence on a new line, and it always appends the separator. -/

/-- Number of non-overlapping occurrences of three consecutive backticks,
scanning left to right, exactly as the global regex match in
`ensureCodeBlocks` counts them. -/
def countFences : List Char → Nat
  | '`' :: '`' :: '`' :: rest => countFences rest + 1
  | _ :: rest => countFences rest
  | [] => 0

/-- `ensureCodeBlocks` from src/Helpers.ts: close an unbalanced code
fence, then append the trailing separator. -/
def ensureCodeBlocks (result : String) : String :=
  let result := if countFences result.data % 2 ≠ 0 then result ++ "\n```" else result
  result ++ "\n\n---\n"

theorem countFences_cons_of_not_fence (c : Char) (l : List Char)
    (hno : ∀ r, c = '`' → l = '`' :: '`' :: r → False) :
    countFences (c :: l) = countFences l := by
  rw [countFences.eq_def]
  split
  · rename_i r heq
    injection heq with hc ht
    exact absurd (hno r hc ht) not_false
  · rename_i heq
    injection heq with _ hl
    rw [hl]
  · rename_i heq
    exact absurd heq (by simp)

/-- Appending a string that does not start with a backtick cannot create a
fence across the boundary, so fence counts add up. -/
theorem countFences_append (s t : List Char) (h : t.head? ≠ some '`') :
    countFences (s ++ t) = countFences s + countFences t := by
  induction s using countFences.induct with
  | case1 rest ih =>
    simp only [List.cons_append]
    rw [show countFences ('`' :: '`' :: '`' :: (rest ++ t)) = countFences (rest ++ t) + 1 from
      rfl]
    rw [show countFences ('`' :: '`' :: '`' :: rest) = countFences rest + 1 from rfl]
    omega
  | case2 c rest hne ih =>
    simp only [List.cons_append]
    have h1 : countFences (c :: rest) = countFences rest :=
      countFences_cons_of_not_fence c rest hne
    have h2 : countFences (c :: (rest ++ t)) = countFences (rest ++ t) := by
      refine countFences_cons_of_not_fence c (rest ++ t) (fun r hc hl => ?_)
      match rest, hl with
      | [], hl =>
        simp only [List.nil_append] at hl
        exact h (by rw [hl]; rfl)
      | ['`'], hl =>
        simp only [List.singleton_append] at hl
        injection hl with _ hl2
        exact h (by simp [hl2])
      | c1 :: c2 :: rs, hl =>
        simp only [List.cons_append] at hl
        injection hl with hc1 hl1
        injection hl1 with hc2 hl2
        exact hne rs hc (by rw [hc1, hc2])
      | [c1], hl =>
        simp only [List.cons_append, List.nil_append] at hl
        injection hl with hc1 hl1
        exact h (by simp [hl1])
    rw [h1, h2, ih]
  | case3 =>
    simp [countFences]

theorem countFences_data_append (s t : String) (h : t.data.head? ≠ some '`') :
    countFences (s ++ t).data = countFences s.data + countFences t.data := by
  rw [String.data_append]
  exact countFences_append s.data t.data h

/-- C7 helper: the fence count of the output of `ensureCodeBlocks` is even. -/
theorem countFences_ensureCodeBlocks_even (t : String) :
    countFences (ensureCodeBlocks t).data % 2 = 0 := by
  unfold ensureCodeBlocks
  rw [countFences_data_append _ "\n\n---\n" (by decide)]
  have hsep : countFences "\n\n---\n".data = 0 := by decide
  by_cases hodd : countFences t.data % 2 ≠ 0
  · rw [if_pos hodd, countFences_data_append _ "\n```" (by decide)]
    have h2 : countFences "\n```".data = 1 := by decide
    omega
  · rw [if_neg hodd]
    omega

/-- C7: `ensureCodeBlocks` counts three-backtick fence markers, appends a
closing fence on a new line exactly when the count is odd, then appends
the trailing separator unconditionally; in particular on the two
spec examples it yields the stated outputs. -/
theorem claim_C7_response_fixup (s : String) :
    ensureCodeBlocks s
      = (if countFences s.data % 2 = 1 then s ++ "\n```" else s) ++ "\n\n---\n"
    ∧ ensureCodeBlocks "abc```def" = "abc```def\n```\n\n---\n"
    ∧ ensureCodeBlocks "abc```def```ghi" = "abc```def```ghi\n\n---\n" := by
  refine ⟨?_, by decide, by decide⟩
  unfold ensureCodeBlocks
  rcases Nat.mod_two_eq_zero_or_one (countFences s.data) with h | h <;>
    simp [h]

/-- C8: `ensureCodeBlocks` is not idempotent: its output always has an
even fence count, so a second application appends no fence but does
append a second trailing separator, producing a strictly different
string. -/
theorem claim_C8_fixup_not_idempotent (t : String) :
    countFences (ensureCodeBlocks t).data % 2 = 0
    ∧ ensureCodeBlocks (ensureCodeBlocks t) = ensureCodeBlocks t ++ "\n\n---\n"
    ∧ ensureCodeBlocks (ensureCodeBlocks t) ≠ ensureCodeBlocks t := by
  have heven := countFences_ensureCodeBlocks_even t
  have hfix : ensureCodeBlocks (ensureCodeBlocks t) = ensureCodeBlocks t ++ "\n\n---\n" := by
    conv_lhs => rw [ensureCodeBlocks]
    rw [if_neg (by omega)]
  refine ⟨heven, hfix, ?_⟩
  intro hcontra
  have hlen : (ensureCodeBlocks t ++ "\n\n---\n").length = (ensureCodeBlocks t).length + 6 := by
    rw [String.length_append]
    have : ("\n\n---\n" : String).length = 6 := by decide
    omega
  rw [hfix] at hcontra
  have := congrArg String.length hcontra
  omega

/-! ## Substring search

`String.prototype.lastIndexOf(pat) === -1` and visual inspection for the
literal `[ERROR]` marker both come down to "pat occurs as a contiguous
substring".  `hasSub pat s` scans `s` left to right. -/

/-- `hasSub pat s` is true iff `pat` occurs contiguously inside `s`
(the JS `indexOf`/`lastIndexOf` containment test). -/
def hasSub (pat : List Char) : List Char → Bool
  | [] => pat.isEmpty
  | c :: rest => pat.isPrefixOf (c :: rest) || hasSub pat rest

/-- String wrapper for `hasSub`. -/
def strContains (s pat : String) : Bool := hasSub pat.data s.data

theorem hasSub_append_left (pat t : List Char) (h : hasSub pat t = true) (s : List Char) :
    hasSub pat (s ++ t) = true := by
  induction s with
  | nil => simpa
  | cons c cs ih => simp [hasSub, ih]

theorem hasSub_of_isPrefixOf (pat l : List Char) (h : pat.isPrefixOf l = true) :
    hasSub pat l = true := by
  cases l with
  | nil =>
    cases pat with
    | nil => rfl
    | cons c cs => simp [List.isPrefixOf] at h
  | cons c rest => simp [hasSub, h]

/-! ## ConnectionConfig: `Settings` (src/Settings.ts) and
`ExtensionSettings` (src/ExtensionSettings.ts)

Both classes expose the derived getters `graphUri` and `vaultUri` with
identical bodies.  Optional configuration fields (TS `?:`) are `Option`;
the numeric `temperature` is embedded as `Rat`. -/

/-- `Settings` (src/Settings.ts): cloud selection, vault name and the
generation options. -/
structure Settings where
  azureCloud : String
  keyvaultName : String
  selectedInsideCodeblock : Option Bool := none
  pasteOnClick : Option Bool := none
  model : Option String := none
  maxTokens : Option Nat := none
  temperature : Option Rat := none
deriving DecidableEq

/-- `Settings.graphUri` getter: identity-token audience URI per cloud. -/
def Settings.graphUri (s : Settings) : String :=
  if s.azureCloud = "AzureCloud" then
    "https://graph.microsoft.com/.default"
  else if s.azureCloud = "AzureUSGovernment" then
    "https://graph.microsoft.us/.default"
  else
    "[Error]: Invalid Azure Cloud setting "

/-- `Settings.vaultUri` getter: key-vault URI per cloud and vault name. -/
def Settings.vaultUri (s : Settings) : String :=
  if s.azureCloud = "AzureCloud" then
    "https://" ++ s.keyvaultName ++ ".vault.azure.net"
  else if s.azureCloud = "AzureUSGovernment" then
    "https://" ++ s.keyvaultName ++ ".vault.usgovcloudapi.net"
  else
    "[Error]: Invalid Azure Cloud setting "

/-- `ExtensionSettings` (src/ExtensionSettings.ts): same shape as
`Settings`, kept separate because the repository declares both classes. -/
structure ExtensionSettings where
  azureCloud : String
  keyvaultName : String
  selectedInsideCodeblock : Option Bool := none
  pasteOnClick : Option Bool := none
  model : Option String := none
  maxTokens : Option Nat := none
  temperature : Option Rat := none
deriving DecidableEq

/-- `ExtensionSettings.graphUri` getter. -/
def ExtensionSettings.graphUri (s : ExtensionSettings) : String :=
  if s.azureCloud = "AzureCloud" then
    "https://graph.microsoft.com/.default"
  else if s.azureCloud = "AzureUSGovernment" then
    "https://graph.microsoft.us/.default"
  else
    "[Error]: Invalid Azure Cloud setting "

/-- `ExtensionSettings.vaultUri` getter. -/
def ExtensionSettings.vaultUri (s : ExtensionSettings) : String :=
  if s.azureCloud = "AzureCloud" then
    "https://" ++ s.keyvaultName ++ ".vault.azure.net"
  else if s.azureCloud = "AzureUSGovernment" then
    "https://" ++ s.keyvaultName ++ ".vault.usgovcloudapi.net"
  else
    "[Error]: Invalid Azure Cloud setting "

/-- C4 counterexample: for an unsupported cloud value both getters return
the sentinel WITH a trailing space, which differs from the exact string
`"[Error]: Invalid Azure Cloud setting"` the claim specifies. -/
theorem claim_C4_counterexample :
    ({ azureCloud := "AzureChinaCloud", keyvaultName := "kv" } : Settings).graphUri
        = "[Error]: Invalid Azure Cloud setting "
    ∧ ({ azureCloud := "AzureChinaCloud", keyvaultName := "kv" } : Settings).vaultUri
        = "[Error]: Invalid Azure Cloud setting "
    ∧ ({ azureCloud := "AzureChinaCloud", keyvaultName := "kv" } : ExtensionSettings).graphUri
        = "[Error]: Invalid Azure Cloud setting "
    ∧ ("[Error]: Invalid Azure Cloud setting " : String)
        ≠ "[Error]: Invalid Azure Cloud setting" := by
  refine ⟨by decide, by decide, by decide, by decide⟩

/-- C4 amended: the mappings are total Lean functions (hence never
throw); `AzureCloud` maps to the commercial URIs, `AzureUSGovernment` to
the government URIs, and every other cloud value maps both getters, on
both classes, to the sentinel `"[Error]: Invalid Azure Cloud setting "`
(note the trailing space present in the source string literal). -/
theorem claim_C4_connection_config (s : Settings) (es : ExtensionSettings) :
    (s.azureCloud = "AzureCloud" →
      s.graphUri = "https://graph.microsoft.com/.default"
      ∧ s.vaultUri = "https://" ++ s.keyvaultName ++ ".vault.azure.net")
    ∧ (s.azureCloud = "AzureUSGovernment" →
      s.graphUri = "https://graph.microsoft.us/.default"
      ∧ s.vaultUri = "https://" ++ s.keyvaultName ++ ".vault.usgovcloudapi.net")
    ∧ (s.azureCloud ≠ "AzureCloud" → s.azureCloud ≠ "AzureUSGovernment" →
      s.graphUri = "[Error]: Invalid Azure Cloud setting "
      ∧ s.vaultUri = "[Error]: Invalid Azure Cloud setting ")
    ∧ (es.azureCloud = "AzureCloud" →
      es.graphUri = "https://graph.microsoft.com/.default"
      ∧ es.vaultUri = "https://" ++ es.keyvaultName ++ ".vault.azure.net")
    ∧ (es.azureCloud = "AzureUSGovernment" →
      es.graphUri = "https://graph.microsoft.us/.default"
      ∧ es.vaultUri = "https://" ++ es.keyvaultName ++ ".vault.usgovcloudapi.net")
    ∧ (es.azureCloud ≠ "AzureCloud" → es.azureCloud ≠ "AzureUSGovernment" →
      es.graphUri = "[Error]: Invalid Azure Cloud setting "
      ∧ es.vaultUri = "[Error]: Invalid Azure Cloud setting ") := by
  refine ⟨fun h => ?_, fun h => ?_, fun h1 h2 => ?_, fun h => ?_, fun h => ?_, fun h1 h2 => ?_⟩ <;>
    simp_all [Settings.graphUri, Settings.vaultUri,
      ExtensionSettings.graphUri, ExtensionSettings.vaultUri]

/-- C4 witness: the amended mapping evaluated on concrete settings for
each of the three cloud cases. -/
theorem claim_C4_connection_config_witness :
    (({ azureCloud := "AzureUSGovernment", keyvaultName := "kv" } : Settings).graphUri
        = "https://graph.microsoft.us/.default"
      ∧ ({ azureCloud := "AzureUSGovernment", keyvaultName := "kv" } : Settings).vaultUri
        = "https://" ++ "kv" ++ ".vault.usgovcloudapi.net")
    ∧ (({ azureCloud := "AzureChinaCloud", keyvaultName := "kv" } : ExtensionSettings).graphUri
        = "[Error]: Invalid Azure Cloud setting "
      ∧ ({ azureCloud := "AzureChinaCloud", keyvaultName := "kv" } : ExtensionSettings).vaultUri
        = "[Error]: Invalid Azure Cloud setting ") :=
  ⟨(claim_C4_connection_config
      { azureCloud := "AzureUSGovernment", keyvaultName := "kv" }
      { azureCloud := "AzureChinaCloud", keyvaultName := "kv" }).2.1 rfl,
   (claim_C4_connection_config
      { azureCloud := "AzureUSGovernment", keyvaultName := "kv" }
      { azureCloud := "AzureChinaCloud", keyvaultName := "kv" }).2.2.2.2.2
      (by decide) (by decide)⟩

/-! ## PromptBuilder: `PromptHelper.createPrompt` (src/PromptHelper.ts)

The TS function builds exactly three messages.  The two persona strings
are transcribed byte for byte from the template literals in the source
(including interior newlines, the four-space continuation indents, the
trailing spaces at line ends and the escaped blank lines); apostrophes
are written with the `\x27` escape.  Note both the system and the user
content pass through `String.prototype.trim()`. -/

/-- A chat message as sent to the completions API. -/
structure ChatRequestMessage where
  role : String
  content : String
deriving DecidableEq

/-- The character class stripped by `String.prototype.trim()` per
ECMA-262 `TrimString`: the `WhiteSpace` production (TAB U+0009,
VT U+000B, FF U+000C, SP U+0020, NBSP U+00A0, ZWNBSP U+FEFF and every
Unicode Space_Separator: U+1680, U+2000..U+200A, U+202F, U+205F,
U+3000) together with the `LineTerminator` production (LF U+000A,
CR U+000D, LS U+2028, PS U+2029). -/
def jsWhitespace (c : Char) : Bool :=
  c.toNat = 0x09 || c.toNat = 0x0A || c.toNat = 0x0B || c.toNat = 0x0C ||
  c.toNat = 0x0D || c.toNat = 0x20 || c.toNat = 0xA0 || c.toNat = 0x1680 ||
  (0x2000 ≤ c.toNat && c.toNat ≤ 0x200A) || c.toNat = 0x2028 ||
  c.toNat = 0x2029 || c.toNat = 0x202F || c.toNat = 0x205F ||
  c.toNat = 0x3000 || c.toNat = 0xFEFF

/-- Embedding of `String.prototype.trim()`: drop leading and trailing
`jsWhitespace` characters. -/
def jsTrim (s : String) : String :=
  ⟨((s.data.dropWhile jsWhitespace).reverse.dropWhile jsWhitespace).reverse⟩

/-- The coding-assistant persona template literal (model ≠ "ChatGPT"). -/
def codingSystemPrompt : String :=
  "You are ASSISTANT helping the USER with coding. \n    You are intelligent, helpful and an expert developer, who always gives the correct answer and only does what instructed. You always answer truthfully and don\x27t make things up. \n    (When responding to the following prompt, please make sure to properly style your response using Github Flavored Markdown. \n    Use markdown syntax for things like headings, lists, colored text, code blocks, highlights etc. Make sure not to mention markdown or stying in your actual response. \n    Try to write code inside a single code block if possible)\n    \n\nUSER: "

/-- The concise-chat persona template literal (model = "ChatGPT"). -/
def chatgptSystemPrompt : String :=
  "You are ChatGPT, a large language model trained by OpenAI. Please answer as concisely as possible for each response, keeping the list items to a minimum. \nUser: "

/-- `PromptHelper.createPrompt(question, settings, selection?)`.  The TS
`if (selection)` test is JS truthiness, so an empty-string selection takes
the no-selection branch; likewise `if (settings.selectedInsideCodeblock)`
is true only for `some true`. -/
def PromptHelper.createPrompt (question : String) (settings : Settings)
    (selection : Option String) : List ChatRequestMessage :=
  let userPrompt :=
    match selection with
    | some sel =>
      if sel ≠ "" then
        if settings.selectedInsideCodeblock = some true then
          question ++ "\n```\n" ++ sel ++ "\n```"
        else
          question ++ "\n" ++ sel ++ "\n"
      else question
    | none => question
  let systemPrompt :=
    if settings.model ≠ some "ChatGPT" then codingSystemPrompt else chatgptSystemPrompt
  [ { role := "system", content := jsTrim systemPrompt },
    { role := "user", content := jsTrim userPrompt },
    { role := "assistant", content := "..." } ]

set_option maxRecDepth 4096 in
theorem personas_distinct : jsTrim codingSystemPrompt ≠ jsTrim chatgptSystemPrompt := by
  decide

/-- C6 counterexample: the user message is the `trim` of the question,
not the raw question: with question `"hi "` (trailing space), model
"ChatGPT" and no selection, the user content is `"hi"`, which differs
from the raw question `"hi "`. -/
theorem claim_C6_counterexample :
    ((PromptHelper.createPrompt "hi "
        { azureCloud := "AzureCloud", keyvaultName := "kv", model := some "ChatGPT" }
        none).map ChatRequestMessage.content)[1]? = some "hi"
    ∧ some ("hi" : String) ≠ some ("hi " : String) := by
  refine ⟨by decide, by decide⟩

/-- C6 amended: `createPrompt` returns exactly 3 messages in the order
system, user, assistant; the system content equals the trimmed
concise-chat persona iff the model setting is the literal "ChatGPT",
and equals the trimmed coding-assistant persona otherwise; with no
selection the user content is the question passed through `trim()`;
with a nonempty selection and selectedInsideCodeblock=true it is the
trimmed fenced concatenation; and the third message is always role
"assistant" with content "...". -/
theorem claim_C6_prompt_builder (q : String) (s : Settings) (sel : Option String) :
    (PromptHelper.createPrompt q s sel).length = 3
    ∧ (PromptHelper.createPrompt q s sel).map ChatRequestMessage.role
        = ["system", "user", "assistant"]
    ∧ (((PromptHelper.createPrompt q s sel).map ChatRequestMessage.content)[0]?
        = some (jsTrim chatgptSystemPrompt) ↔ s.model = some "ChatGPT")
    ∧ (s.model ≠ some "ChatGPT" →
        ((PromptHelper.createPrompt q s sel).map ChatRequestMessage.content)[0]?
          = some (jsTrim codingSystemPrompt))
    ∧ (sel = none →
        ((PromptHelper.createPrompt q s sel).map ChatRequestMessage.content)[1]?
          = some (jsTrim q))
    ∧ (∀ str, sel = some str → str ≠ "" → s.selectedInsideCodeblock = some true →
        ((PromptHelper.createPrompt q s sel).map ChatRequestMessage.content)[1]?
          = some (jsTrim (q ++ "\n```\n" ++ str ++ "\n```")))
    ∧ ((PromptHelper.createPrompt q s sel).map ChatRequestMessage.content)[2]?
        = some "..." := by
  refine ⟨by simp [PromptHelper.createPrompt], by simp [PromptHelper.createPrompt], ?_, ?_, ?_,
    ?_, by simp [PromptHelper.createPrompt]⟩
  · by_cases hm : s.model = some "ChatGPT"
    · simp [PromptHelper.createPrompt, hm]
    · simp [PromptHelper.createPrompt, hm]
      exact personas_distinct
  · intro hm
    simp [PromptHelper.createPrompt, hm]
  · intro h
    subst h
    simp [PromptHelper.createPrompt]
  · intro str hsel hne hcb
    subst hsel
    simp [PromptHelper.createPrompt, hne, hcb]

/-- Concrete settings used to witness the amended C6 statement. -/
def promptWitnessSettings : Settings :=
  { azureCloud := "AzureCloud", keyvaultName := "kv", model := some "ChatGPT",
    selectedInsideCodeblock := some true }

/-- Concrete non-"ChatGPT" settings used to witness the coding-persona
conjunct of the amended C6 statement. -/
def codingWitnessSettings : Settings :=
  { azureCloud := "AzureCloud", keyvaultName := "kv", model := some "gpt-4" }

/-- C6 witness: the amended statement applied at question `"what "`,
model "ChatGPT" and selection `"x=1"` inside a code block, and at model
"gpt-4" with no selection for the coding persona. -/
theorem claim_C6_prompt_builder_witness :
    ((PromptHelper.createPrompt "what " promptWitnessSettings
        (some "x=1")).map ChatRequestMessage.content)[1]?
      = some (jsTrim ("what " ++ "\n```\n" ++ "x=1" ++ "\n```"))
    ∧ ((PromptHelper.createPrompt "what " codingWitnessSettings
        none).map ChatRequestMessage.content)[0]?
      = some (jsTrim codingSystemPrompt) :=
  ⟨(claim_C6_prompt_builder "what " promptWitnessSettings (some "x=1")).2.2.2.2.2.1
      "x=1" rfl (by decide) rfl,
   (claim_C6_prompt_builder "what " codingWitnessSettings none).2.2.2.1 (by decide)⟩

/-! ## CredentialResolver: `AuthHelper.authenticate` (src/AuthHelper.ts)

The remote calls are oracles: `tokenResult` is the outcome of
`cliCredential.getToken(settings.graphUri)` and `getSecret name` the
outcome of `client.getSecret(name)`.  The embedding also returns the
list of vault secret names actually requested, so that "zero secret
fetch calls" and "the remaining fetches are aborted" are statable. -/

/-- The `AuthInfo` record of src/AuthHelper.ts.  The optional secret
fields start out absent (TS `undefined`); `hasError` starts falsy. -/
structure AuthInfo where
  aoaiKey : Option String := none
  aoaiEndpoint : Option String := none
  aoaiDeployment : Option String := none
  messages : List String := []
  hasError : Bool := false
deriving DecidableEq

/-- Oracle for `client.getSecret`: secret name to value or thrown error. -/
abbrev SecretFetch := String → Except String String

/-- The token success message pushed by `authenticate`. -/
def authTokenOkMsg : String :=
  "azurecodegpt-auth: [Success] - Granted credential from [az login]."

/-- The token failure message pushed by `authenticate`. -/
def authTokenErrMsg (e : String) : String :=
  "azurecodegpt-auth: [Error]- Fetching token for the current user. Are you sure you\x27ve signed in through \x27az login\x27 via a terminal prompt?  Message: " ++ e

/-- The per-secret success message pushed inside the fetch loop. -/
def authFetchOkMsg (prop : String) : String :=
  "azurecodegpt-auth: [Success] - Fetched [" ++ prop ++ "] successfully."

/-- The single Key-Vault failure message pushed by the catch block. -/
def authKvErrMsg (e : String) : String :=
  "azurecodegpt-auth: [Error]- Fetching values from Key Vault. Message: " ++ e

/-- The `secrets` record literal of src/AuthHelper.ts: property name
paired with the Key-Vault secret name, in insertion (= `for..in`) order. -/
def authSecretsRecord : List (String × String) :=
  [("aoaiEndpoint", "AOAIEndpoint"), ("aoaiKey", "AOAIKey"),
    ("aoaiDeployment", "AOAIDeployment")]

/-- Result of running the `for..in` fetch loop inside the single `try`
of `authenticate`: the success messages pushed so far, the vault calls
made, and either the fetched property/value pairs or the first thrown
error (which aborts the remaining iterations). -/
structure FetchLoopOutcome where
  msgs : List String
  calls : List String
  result : Except String (List (String × String))

/-- The fetch loop: sequential, stops at the first failing `getSecret`. -/
def fetchSecretsLoop (getSecret : SecretFetch) :
    List (String × String) → FetchLoopOutcome
  | [] => ⟨[], [], .ok []⟩
  | (prop, name) :: rest =>
    match getSecret name with
    | .ok v =>
      let o := fetchSecretsLoop getSecret rest
      ⟨authFetchOkMsg prop :: o.msgs, name :: o.calls,
        o.result.map (fun vs => (prop, v) :: vs)⟩
    | .error e => ⟨[], [name], .error e⟩

/-- `AuthHelper.authenticate` (src/AuthHelper.ts): token first (quick
exit on failure, before any vault call), then the three secret fetches
inside one `try`; on loop success the fetched values are spread-merged
into the `AuthInfo`, on a thrown fetch error the catch pushes one error
message and the merge line is never reached, leaving every secret field
unassigned.  Returns the `AuthInfo` and the vault calls made. -/
def AuthHelper.authenticate (tokenResult : Except String Unit)
    (getSecret : SecretFetch) : AuthInfo × List String :=
  match tokenResult with
  | .error e =>
    ({ hasError := true, messages := [authTokenErrMsg e] }, [])
  | .ok _ =>
    let o := fetchSecretsLoop getSecret authSecretsRecord
    match o.result with
    | .ok vals =>
      ({ aoaiEndpoint := vals.lookup "aoaiEndpoint",
         aoaiKey := vals.lookup "aoaiKey",
         aoaiDeployment := vals.lookup "aoaiDeployment",
         messages := authTokenOkMsg :: o.msgs,
         hasError := false }, o.calls)
    | .error e =>
      ({ messages := authTokenOkMsg :: (o.msgs ++ [authKvErrMsg e]),
         hasError := true }, o.calls)

/-- C3: when token acquisition fails, `authenticate` pushes exactly the
one failure message, sets hasError, returns at once, and performs zero
vault secret fetches; no secret field is ever assigned. -/
theorem claim_C3_token_failure_fail_fast (e : String) (getSecret : SecretFetch) :
    (AuthHelper.authenticate (.error e) getSecret).1.hasError = true
    ∧ (AuthHelper.authenticate (.error e) getSecret).1.messages = [authTokenErrMsg e]
    ∧ (AuthHelper.authenticate (.error e) getSecret).2 = []
    ∧ (AuthHelper.authenticate (.error e) getSecret).1.aoaiEndpoint = none
    ∧ (AuthHelper.authenticate (.error e) getSecret).1.aoaiKey = none
    ∧ (AuthHelper.authenticate (.error e) getSecret).1.aoaiDeployment = none :=
  ⟨rfl, rfl, rfl, rfl, rfl, rfl⟩

/-- Oracle with exactly one failing fetch, on the last secret attempted
(`AOAIDeployment`); the other two succeed. -/
def oracleLastFails : SecretFetch := fun name =>
  if name = "AOAIDeployment" then .error "kv down" else .ok ("val-" ++ name)

/-- Oracle with exactly one failing fetch, on the middle secret
attempted (`AOAIKey`). -/
def oracleMidFails : SecretFetch := fun name =>
  if name = "AOAIKey" then .error "kv down" else .ok ("val-" ++ name)

/-- C1 is violated by the code: the three fetches live in one `try`, so
one failure aborts the rest and skips the merge.  With only
`AOAIDeployment` failing, both other fetches succeeded yet no secret
field of the returned `AuthInfo` is assigned (all remain `none`), even
though the message list does hold two success entries and one failure
entry; and with only `AOAIKey` failing, the third fetch is never even
attempted (only two vault calls are made) and only one success message
is recorded. -/
theorem claim_C1_single_failure_aborts :
    (AuthHelper.authenticate (.ok ()) oracleLastFails).1.aoaiEndpoint = none
    ∧ (AuthHelper.authenticate (.ok ()) oracleLastFails).1.aoaiKey = none
    ∧ (AuthHelper.authenticate (.ok ()) oracleLastFails).1.hasError = true
    ∧ (AuthHelper.authenticate (.ok ()) oracleLastFails).1.messages
        = [authTokenOkMsg, authFetchOkMsg "aoaiEndpoint", authFetchOkMsg "aoaiKey",
           authKvErrMsg "kv down"]
    ∧ (AuthHelper.authenticate (.ok ()) oracleMidFails).2
        = ["AOAIEndpoint", "AOAIKey"]
    ∧ (AuthHelper.authenticate (.ok ()) oracleMidFails).1.messages
        = [authTokenOkMsg, authFetchOkMsg "aoaiEndpoint", authKvErrMsg "kv down"] := by
  refine ⟨by decide, by decide, by decide, by decide, by decide, by decide⟩

/-! ## Singleton resolver revision: `AuthHelper.authenticate` (fire-and-forget)

A later revision of the resolver (the singleton `AuthHelper` class)
replaces the awaited loop with
`Object.entries(secrets).forEach(async ([key, value]) => { ... await
client.getSecret(...) ... })` and then immediately runs
`AuthHelper.instance._isLoaded = true`.  Under the JS event loop each
async callback executes synchronously only up to its first `await`
(issuing the `getSecret` request) and then suspends; `forEach` does not
await the returned promises, so the `_isLoaded = true` assignment runs
while all three fetches are still pending, and the completions are
delivered in later microtask turns.  The observable event order of one
resolution attempt (token acquisition succeeded, every fetch genuinely
asynchronous) is embedded as a trace. -/

/-- Observable events of one fire-and-forget resolution attempt. -/
inductive ResolverEvent where
  | tokenAcquired
  | secretFetchIssued (prop : String)
  | isLoadedSetTrue
  | secretFetchCompleted (prop : String)
deriving DecidableEq

/-- The property keys of the singleton resolver's `secrets` record, in
`Object.entries` order. -/
def resolverSecretProps : List String := ["aoaiEndpoint", "aoaiKey", "aoaiDeployment"]

/-- Event trace of the fire-and-forget `authenticate`: token, then the
three fetches are issued, then `_isLoaded = true` is assigned, and only
afterwards do the pending fetches complete (in `completionOrder`). -/
def fireAndForgetAuthTrace (completionOrder : List String) : List ResolverEvent :=
  [ResolverEvent.tokenAcquired]
    ++ resolverSecretProps.map ResolverEvent.secretFetchIssued
    ++ [ResolverEvent.isLoadedSetTrue]
    ++ completionOrder.map ResolverEvent.secretFetchCompleted

/-- Whether `_isLoaded = true` has been executed within a trace prefix. -/
def isLoadedIn (tr : List ResolverEvent) : Bool :=
  tr.any (fun ev => ev = ResolverEvent.isLoadedSetTrue)

/-- Number of completed secret fetches within a trace prefix. -/
def completedIn (tr : List ResolverEvent) : Nat :=
  (tr.filter (fun ev => match ev with
    | ResolverEvent.secretFetchCompleted _ => true
    | _ => false)).length

/-- Number of issued secret fetches within a trace prefix. -/
def issuedIn (tr : List ResolverEvent) : Nat :=
  (tr.filter (fun ev => match ev with
    | ResolverEvent.secretFetchIssued _ => true
    | _ => false)).length

/-- C2 is violated by the code: in the fire-and-forget revision, after
the first five events of the attempt (the point at which the
`_isLoaded = true` assignment has just run) all three fetches have been
issued and none has completed, so the resolver reports isLoaded=true
while every one of the three fetches is still pending. -/
theorem claim_C2_isLoaded_before_fetches_complete :
    isLoadedIn ((fireAndForgetAuthTrace resolverSecretProps).take 5) = true
    ∧ issuedIn ((fireAndForgetAuthTrace resolverSecretProps).take 5) = 3
    ∧ completedIn ((fireAndForgetAuthTrace resolverSecretProps).take 5) = 0
    ∧ completedIn (fireAndForgetAuthTrace resolverSecretProps) = 3 := by
  refine ⟨by decide, by decide, by decide, by decide⟩

/-! ## ChatClientFactory path: `AOAIViewProvider.connectToAzureAOAI`

The provider revision that loads the three secrets through
`KeyVaultHelper.loadSecret` (each `await` throws into the enclosing
`catch` on failure), then applies the USGovernment endpoint policy check
(`aoaiEndpoint.lastIndexOf(".us") === -1`) and returns before
`AOAIHelper.getInstance` — the client construction plus liveness probe —
is ever reached. -/

/-- `AOAIEndpointSecrets` record: all fields initialised to "". -/
structure AOAIEndpointSecrets where
  aoaiEndpoint : String := ""
  aoaiKey : String := ""
  aoaiDeployment : String := ""
deriving DecidableEq

/-- `AOAIOptions`: generation options handed to `AOAIHelper`. -/
structure AOAIOptions where
  model : Option String := none
  maxTokens : Option Nat := none
  temperature : Option Rat := none
deriving DecidableEq

/-- Oracle for `KeyVaultHelper.loadSecret`. -/
abbrev LoadSecret := String → Except String String

/-- Outcome of one `connectToAzureAOAI` run.  `clientBuilt` marks that
control reached `AOAIHelper.getInstance(secrets, options)`, i.e. client
construction and the liveness probe. -/
inductive ConnectOutcome where
  | loadFailed (msg : String)
  | govMismatchRejected
  | clientBuilt (secrets : AOAIEndpointSecrets) (options : AOAIOptions)
deriving DecidableEq

/-- `connectToAzureAOAI`: load the three secrets (deployment, endpoint,
key, in source order; a throw lands in the outer catch), then the
government-cloud policy check, then client construction. -/
def connectToAzureAOAI (settings : Settings) (loadSecret : LoadSecret) : ConnectOutcome :=
  match loadSecret "aoaiDeployment" with
  | .error e => .loadFailed e
  | .ok dep =>
    match loadSecret "aoaiEndpoint" with
    | .error e => .loadFailed e
    | .ok ep =>
      match loadSecret "aoaiKey" with
      | .error e => .loadFailed e
      | .ok key =>
        if settings.azureCloud = "AzureUSGovernment" ∧ strContains ep ".us" = false then
          .govMismatchRejected
        else
          .clientBuilt { aoaiDeployment := dep, aoaiEndpoint := ep, aoaiKey := key }
            { model := settings.model, maxTokens := settings.maxTokens,
              temperature := settings.temperature }

/-- C9: with cloud USGovernment and a resolved endpoint that does not
contain ".us", the connection attempt is rejected with the
configuration-mismatch outcome; the client-construction/liveness-probe
outcome is never produced. -/
theorem claim_C9_gov_endpoint_policy (s : Settings) (loadSecret : LoadSecret)
    (dep ep key : String)
    (hcloud : s.azureCloud = "AzureUSGovernment")
    (hdep : loadSecret "aoaiDeployment" = .ok dep)
    (hep : loadSecret "aoaiEndpoint" = .ok ep)
    (hkey : loadSecret "aoaiKey" = .ok key)
    (hus : strContains ep ".us" = false) :
    connectToAzureAOAI s loadSecret = .govMismatchRejected
    ∧ ∀ sec opt, connectToAzureAOAI s loadSecret ≠ .clientBuilt sec opt := by
  have hmain : connectToAzureAOAI s loadSecret = .govMismatchRejected := by
    unfold connectToAzureAOAI
    rw [hdep, hep, hkey]
    simp only []
    rw [if_pos ⟨hcloud, hus⟩]
  exact ⟨hmain, fun sec opt => by simp [hmain]⟩

/-- Concrete vault oracle for the C9 witness: a commercial-cloud
endpoint stored in the vault while the cloud setting is USGovernment. -/
def govMismatchOracle : LoadSecret := fun name =>
  if name = "aoaiDeployment" then .ok "gpt-4"
  else if name = "aoaiEndpoint" then .ok "https://myaoai.openai.azure.com"
  else if name = "aoaiKey" then .ok "secret-key"
  else .error "no such secret"

/-- C9 witness: the policy check fires on the concrete mismatch oracle. -/
theorem claim_C9_gov_endpoint_policy_witness :
    connectToAzureAOAI { azureCloud := "AzureUSGovernment", keyvaultName := "kv" }
      govMismatchOracle = ConnectOutcome.govMismatchRejected :=
  (claim_C9_gov_endpoint_policy
    { azureCloud := "AzureUSGovernment", keyvaultName := "kv" } govMismatchOracle
    "gpt-4" "https://myaoai.openai.azure.com" "secret-key"
    rfl rfl rfl rfl (by decide)).1

/-! ## ChatSession: `AOAIViewProvider.runChat` (src/AOAIViewProvider.ts)

Only the response-producing core is embedded: the no-client branch
returns a sentinel string as data, the success branch post-processes the
first choice content with `ensureCodeBlocks`, and the catch block
executes `response += "\n\n---\n[ERROR] " + e`, preserving whatever the
`response` variable held at the time of the throw. -/

/-- The sentinel returned as data when no chat client is connected. -/
def noClientResponse : String :=
  "[ERROR] API key, endpoint or model not set, please go to extension settings to set it (read README.md for more info)"

/-- The catch block of `runChat`: append the formatted error marker to
the partial response text. -/
def chatCatchAppend (partialResp e : String) : String :=
  partialResp ++ "\n\n---\n[ERROR] " ++ e

/-- The response computation of `runChat` after the empty-prompt guard:
`chatResult` is the outcome of `getChatCompletions` (first choice content
on success, thrown message on failure); the `response` variable is ""
when the remote call throws. -/
def runChatResponse (hasClient : Bool) (chatResult : Except String (Option String)) :
    String :=
  if hasClient = false then
    noClientResponse
  else
    match chatResult with
    | .ok content => ensureCodeBlocks (content.getD "")
    | .error e => chatCatchAppend "" e

theorem hasSub_error_marker (p e : String) :
    hasSub "[ERROR]".data (chatCatchAppend p e).data = true := by
  have hdecomp : (chatCatchAppend p e).data
      = p.data ++ ("\n\n---\n".data ++ ("[ERROR] ".data ++ e.data)) := by
    unfold chatCatchAppend
    rw [String.data_append, String.data_append]
    simp [List.append_assoc]
  rw [hdecomp]
  refine hasSub_append_left _ _ ?_ _
  refine hasSub_append_left _ _ ?_ _
  exact hasSub_of_isPrefixOf _ _ rfl

/-- C5: a chat failure is surfaced as displayable text: with no connected
client `runChat` produces the sentinel string (which contains the literal
"[ERROR]") as data, and on remote-call failure the catch appends the
formatted `[ERROR]` suffix to the partial response text — the partial
text survives as a prefix and the produced text contains "[ERROR]". -/
theorem claim_C5_chat_errors_as_text (chatResult : Except String (Option String))
    (partialResp e : String) :
    runChatResponse false chatResult = noClientResponse
    ∧ strContains noClientResponse "[ERROR]" = true
    ∧ runChatResponse true (.error e) = chatCatchAppend "" e
    ∧ partialResp.data.isPrefixOf (chatCatchAppend partialResp e).data = true
    ∧ strContains (chatCatchAppend partialResp e) "[ERROR]" = true := by
  refine ⟨rfl, by decide, rfl, ?_, hasSub_error_marker partialResp e⟩
  unfold chatCatchAppend
  rw [String.data_append, String.data_append, List.append_assoc]
  exact List.isPrefixOf_iff_prefix.mpr (List.prefix_append _ _)

/-! ## Settings update: `AOAIViewProvider.setSettings` (src/AOAIViewProvider.ts)

The provider revision whose body is
`this._settings = { ...this._settings, ...settings };` followed by
`await this._connectToAzureOpenAPI(this.authInfo);`.  To distinguish a
property that is absent from one that is explicitly present with value
`undefined` (JS spread copies the latter, overwriting), a settings
object is a lookup function from property name to `Option JsValue`,
where `none` means the key is absent and `some JsValue.undef` means
present-with-undefined. -/

/-- A JS property value of the settings object (string, boolean, number
or the explicit `undefined`). -/
inductive JsValue where
  | undef
  | vstr (s : String)
  | vbool (b : Bool)
  | vnum (q : Rat)
deriving DecidableEq

/-- A JS object viewed through own-property lookup. -/
abbrev JsObject := String → Option JsValue

/-- The spread merge `{ ...stored, ...arg }`: a property present on
`arg` (even with value `undefined`) wins; otherwise `stored`'s value. -/
def spreadMerge (stored arg : JsObject) : JsObject :=
  fun k =>
    match arg k with
    | some v => some v
    | none => stored k

/-- The provider state touched (or not) by `setSettings`: the settings
object plus the remaining instance fields of `AOAIViewProvider`
(webview, chat client handle, response buffer, prompt, full prompt,
message counter, cached auth info). -/
structure ProviderState where
  settings : JsObject
  view : Option Nat := none
  openai : Option Nat := none
  response : Option String := none
  prompt : Option String := none
  fullPrompt : Option (List ChatRequestMessage) := none
  currentMessageNumber : Nat := 0
  authInfo : Option AuthInfo := none

/-- `AOAIViewProvider.setSettings`: spread-merge the argument over the
stored settings, then initiate the reconnect, passing the (unchanged)
cached auth info.  Returns the new state and the argument handed to
`_connectToAzureOpenAPI`. -/
def AOAIViewProvider.setSettings (st : ProviderState) (settings : JsObject) :
    ProviderState × Option AuthInfo :=
  let st2 := { st with settings := spreadMerge st.settings settings }
  (st2, st2.authInfo)

/-- C10: `setSettings` merges shallowly: any property present on the
argument (explicit `undefined` included) overwrites the stored value,
absent properties keep their stored values; and before the reconnect is
initiated no other provider state has changed — every other field of the
state handed to the reconnect equals the old one, and the reconnect is
given the untouched cached auth info. -/
theorem claim_C10_setSettings_shallow_merge (st : ProviderState) (arg : JsObject)
    (k : String) :
    (∀ v, arg k = some v → (AOAIViewProvider.setSettings st arg).1.settings k = some v)
    ∧ (arg k = some JsValue.undef →
        (AOAIViewProvider.setSettings st arg).1.settings k = some JsValue.undef)
    ∧ (arg k = none →
        (AOAIViewProvider.setSettings st arg).1.settings k = st.settings k)
    ∧ (AOAIViewProvider.setSettings st arg).1.view = st.view
    ∧ (AOAIViewProvider.setSettings st arg).1.openai = st.openai
    ∧ (AOAIViewProvider.setSettings st arg).1.response = st.response
    ∧ (AOAIViewProvider.setSettings st arg).1.prompt = st.prompt
    ∧ (AOAIViewProvider.setSettings st arg).1.fullPrompt = st.fullPrompt
    ∧ (AOAIViewProvider.setSettings st arg).1.currentMessageNumber
        = st.currentMessageNumber
    ∧ (AOAIViewProvider.setSettings st arg).1.authInfo = st.authInfo
    ∧ (AOAIViewProvider.setSettings st arg).2 = st.authInfo := by
  refine ⟨fun v hv => ?_, fun hv => ?_, fun hv => ?_,
    rfl, rfl, rfl, rfl, rfl, rfl, rfl, rfl⟩ <;>
    simp [AOAIViewProvider.setSettings, spreadMerge, hv]

/-- Stored settings for the C10 witness: model is "gpt-35-turbo",
maxTokens is 500. -/
def storedSettingsObj : JsObject := fun k =>
  if k = "model" then some (JsValue.vstr "gpt-35-turbo")
  else if k = "maxTokens" then some (JsValue.vnum 500)
  else none

/-- Update argument for the C10 witness: `model` explicitly present with
value `undefined`; `maxTokens` absent. -/
def updateSettingsObj : JsObject := fun k =>
  if k = "model" then some JsValue.undef else none

/-- C10 witness: on the concrete objects, the explicit-undefined `model`
overwrites the stored value, the absent `maxTokens` keeps it, and the
cached auth info passed to the reconnect is unchanged. -/
theorem claim_C10_setSettings_shallow_merge_witness :
    (AOAIViewProvider.setSettings { settings := storedSettingsObj }
        updateSettingsObj).1.settings "model" = some JsValue.undef
    ∧ (AOAIViewProvider.setSettings { settings := storedSettingsObj }
        updateSettingsObj).1.settings "maxTokens"
        = storedSettingsObj "maxTokens"
    ∧ (AOAIViewProvider.setSettings { settings := storedSettingsObj }
        updateSettingsObj).2 = none :=
  ⟨(claim_C10_setSettings_shallow_merge { settings := storedSettingsObj }
      updateSettingsObj "model").2.1 rfl,
   (claim_C10_setSettings_shallow_merge { settings := storedSettingsObj }
      updateSettingsObj "maxTokens").2.2.1 rfl,
   (claim_C10_setSettings_shallow_merge { settings := storedSettingsObj }
      updateSettingsObj "maxTokens").2.2.2.2.2.2.2.2.2.2⟩
